import Mathlib

/-!
Shallow embedding of the report codec and command-encoding layer of
`dualsensectl` (src/main.c), together with proofs of the specified
properties.  Machine integers (`uint8_t`, `uint16_t`, `uint32_t`) are
modelled as `Nat` with explicit `% 2^w` / `&&& mask` where the C code
truncates.  Byte buffers are `List Nat` whose entries are below 256.
The file is organized as: definitions (translated from the source),
then theorems.
-/

namespace Dualsensectl

/-! Checksum primitive -/

/-- Modelled from the spec: `crc32_le` is declared in `crc32.h`, which is not
part of the sources; per §4.1/§6 it is the standard reflected CRC32 with
polynomial 0xEDB88320, bit-by-bit, seeded externally, with no final inversion
of its own.  One round of the reflected CRC32: shift right one bit and fold in
the polynomial if the dropped bit was set. -/
def crc32_round (c : Nat) : Nat :=
  if c % 2 = 1 then (c >>> 1) ^^^ 0xEDB88320 else c >>> 1

/-- Modelled from the spec: fold one byte into the CRC32 accumulator
(xor the byte into the low bits, then run 8 bit rounds). -/
def crc32_step (crc byte : Nat) : Nat :=
  crc32_round^[8] (crc ^^^ byte)

/-- Modelled from the spec: `crc32_le(seed, data, len)` folds each byte of
`data` into the externally supplied accumulator `seed`. -/
def crc32_le (crc : Nat) (data : List Nat) : Nat :=
  data.foldl crc32_step crc

/-- Seed byte for "output report" context (`PS_OUTPUT_CRC32_SEED`). -/
def PS_OUTPUT_CRC32_SEED : Nat := 0xA2

/-- The 4 bytes of a `uint32_t` stored little-endian (the in-memory layout of
the packed `crc32` field of `struct dualsense_output_report_bt`). -/
def leBytes4 (n : Nat) : List Nat :=
  [n % 256, n / 256 % 256, n / 65536 % 256, n / 16777216 % 256]

/-- Read back a little-endian 4-byte slot as a `uint32_t` value. -/
def leValue4 : List Nat → Nat
  | [b0, b1, b2, b3] => b0 + 256 * b1 + 65536 * b2 + 16777216 * b3
  | _ => 0

/-- The checksum `dualsense_send_output_report` computes for a Bluetooth
frame: `crc = crc32_le(0xFFFFFFFF, &seed, 1); crc = ~crc32_le(crc, data,
len - 4)`.  The `~` of a `uint32_t` is xor with `0xFFFFFFFF`. -/
def bt_sign_crc (data : List Nat) : Nat :=
  0xFFFFFFFF ^^^ crc32_le (crc32_le 0xFFFFFFFF [PS_OUTPUT_CRC32_SEED]) (data.take (data.length - 4))

/-- `dualsense_send_output_report` on a Bluetooth frame: compute the two-stage
seeded CRC over all bytes but the trailing 4, and store it little-endian in
the last 4 bytes (`report->bt->crc32 = crc`). -/
def dualsense_send_output_report_bt (data : List Nat) : List Nat :=
  data.take (data.length - 4) ++ leBytes4 (bt_sign_crc data)

/-! Report layout model -/

/-- `struct dualsense_output_report_common`: the transport-independent 47-byte
payload shared by both framings.  Each `uint8_t` field is a `Nat`; the two
10-byte trigger parameter arrays are 10-element lists. -/
structure dualsense_output_report_common where
  valid_flag0 : Nat
  valid_flag1 : Nat
  motor_right : Nat
  motor_left : Nat
  headphone_audio_volume : Nat
  speaker_audio_volume : Nat
  internal_microphone_volume : Nat
  audio_flags : Nat
  mute_button_led : Nat
  power_save_control : Nat
  right_trigger_motor_mode : Nat
  right_trigger_param : List Nat
  left_trigger_motor_mode : Nat
  left_trigger_param : List Nat
  reserved2 : List Nat
  reduce_motor_power : Nat
  audio_flags2 : Nat
  valid_flag2 : Nat
  haptics_flags : Nat
  reserved3 : Nat
  lightbar_setup : Nat
  led_brightness : Nat
  player_leds : Nat
  lightbar_red : Nat
  lightbar_green : Nat
  lightbar_blue : Nat
  deriving Repr, DecidableEq

/-- The all-zero common block, as produced by the `memset(buf, 0, ...)` in
`dualsense_init_output_report`. -/
def dualsense_output_report_common.zero : dualsense_output_report_common :=
  { valid_flag0 := 0, valid_flag1 := 0, motor_right := 0, motor_left := 0
    headphone_audio_volume := 0, speaker_audio_volume := 0
    internal_microphone_volume := 0, audio_flags := 0, mute_button_led := 0
    power_save_control := 0
    right_trigger_motor_mode := 0, right_trigger_param := List.replicate 10 0
    left_trigger_motor_mode := 0, left_trigger_param := List.replicate 10 0
    reserved2 := List.replicate 4 0, reduce_motor_power := 0, audio_flags2 := 0
    valid_flag2 := 0, haptics_flags := 0, reserved3 := 0, lightbar_setup := 0
    led_brightness := 0, player_leds := 0, lightbar_red := 0
    lightbar_green := 0, lightbar_blue := 0 }

/-- `struct dualsense`: one open session.  The device handle and MAC address
play no role in the codec layer; `bt` selects the framing and `output_seq`
is the rolling 4-bit counter (a `uint8_t` in the source). -/
structure dualsense where
  bt : Bool
  output_seq : Nat
  deriving Repr, DecidableEq

/-- `DS_OUTPUT_REPORT_BT` -/
def DS_OUTPUT_REPORT_BT : Nat := 0x31
/-- `DS_OUTPUT_REPORT_USB` -/
def DS_OUTPUT_REPORT_USB : Nat := 0x02
/-- `DS_OUTPUT_TAG` -/
def DS_OUTPUT_TAG : Nat := 0x10

/-- `BIT(n)` -/
def BIT (n : Nat) : Nat := 1 <<< n

def DS_OUTPUT_VALID_FLAG0_RIGHT_TRIGGER_MOTOR_ENABLE : Nat := BIT 2
def DS_OUTPUT_VALID_FLAG0_LEFT_TRIGGER_MOTOR_ENABLE : Nat := BIT 3
def DS_OUTPUT_VALID_FLAG0_HEADPHONE_VOLUME_ENABLE : Nat := BIT 4
def DS_OUTPUT_VALID_FLAG0_SPEAKER_VOLUME_ENABLE : Nat := BIT 5
def DS_OUTPUT_VALID_FLAG0_AUDIO_CONTROL_ENABLE : Nat := BIT 7
def DS_OUTPUT_VALID_FLAG1_MIC_MUTE_LED_CONTROL_ENABLE : Nat := BIT 0
def DS_OUTPUT_VALID_FLAG1_POWER_SAVE_CONTROL_ENABLE : Nat := BIT 1
def DS_OUTPUT_VALID_FLAG1_LIGHTBAR_CONTROL_ENABLE : Nat := BIT 2
def DS_OUTPUT_VALID_FLAG1_PLAYER_INDICATOR_CONTROL_ENABLE : Nat := BIT 4
def DS_OUTPUT_VALID_FLAG1_VIBRATION_ATTENUATION_ENABLE : Nat := BIT 6
def DS_OUTPUT_VALID_FLAG2_LED_BRIGHTNESS_CONTROL_ENABLE : Nat := BIT 0
def DS_OUTPUT_VALID_FLAG2_LIGHTBAR_SETUP_CONTROL_ENABLE : Nat := BIT 1
def DS_OUTPUT_POWER_SAVE_CONTROL_MIC_MUTE : Nat := BIT 4
def DS_OUTPUT_LIGHTBAR_SETUP_LIGHT_ON : Nat := BIT 0
def DS_OUTPUT_LIGHTBAR_SETUP_LIGHT_OUT : Nat := BIT 1
def DS_OUTPUT_AUDIO_OUTPUT_PATH_SHIFT : Nat := 4
def DS_OUTPUT_AUDIO_INPUT_PATH_SHIFT : Nat := 6
def DS_TRIGGER_EFFECT_OFF : Nat := 0x05
def DS_TRIGGER_EFFECT_FEEDBACK : Nat := 0x21
def DS_TRIGGER_EFFECT_WEAPON : Nat := 0x25
def DS_TRIGGER_EFFECT_VIBRATION : Nat := 0x26
def DS_STATUS_BATTERY_CAPACITY : Nat := 0xF
def DS_STATUS_CHARGING : Nat := 0xF0
def DS_STATUS_CHARGING_SHIFT : Nat := 4

/-- One constructed output report (`struct dualsense_output_report` after
`dualsense_init_output_report` ran): the framing tag, the Bluetooth header
bytes (meaningless and zero for USB framing) and the common block. -/
structure dualsense_output_report where
  bt : Bool
  report_id : Nat
  seq_tag : Nat
  tag : Nat
  common : dualsense_output_report_common
  deriving Repr, DecidableEq

/-- `dualsense_init_output_report`: zero the buffer, write the header for the
session's transport and, for Bluetooth, place the rolling counter in the
upper nibble of `seq_tag` and advance it (`if (++ds->output_seq == 16)
ds->output_seq = 0`, on a `uint8_t`).  Returns the updated session and the
initialized report. -/
def dualsense_init_output_report (ds : dualsense) :
    dualsense × dualsense_output_report :=
  if ds.bt then
    ({ ds with output_seq :=
        if (ds.output_seq + 1) % 256 = 16 then 0 else (ds.output_seq + 1) % 256 },
     { bt := true, report_id := DS_OUTPUT_REPORT_BT
       seq_tag := ((ds.output_seq <<< 4) ||| 0x0) % 256, tag := DS_OUTPUT_TAG
       common := dualsense_output_report_common.zero })
  else
    (ds,
     { bt := false, report_id := DS_OUTPUT_REPORT_USB, seq_tag := 0, tag := 0
       common := dualsense_output_report_common.zero })

/-- The session state after building one output report. -/
def buildStep (ds : dualsense) : dualsense :=
  (dualsense_init_output_report ds).1

/-- The n-th report built from session `ds` (counting from 0). -/
def nthBuiltReport (ds : dualsense) (n : Nat) : dualsense_output_report :=
  (dualsense_init_output_report (buildStep^[n] ds)).2

/-! Command encoders

Each encoder returns `(exit code, session after the call, reports sent)`.
`dualsense_send_output_report` appends the finished report to the sent list
(its CRC signing is modelled separately at byte level above, since it does
not change the report contents outside the checksum slot). -/

/-- `command_lightbar1`: lightbar on/off. -/
def command_lightbar1 (ds : dualsense) (state : String) :
    Nat × dualsense × List dualsense_output_report :=
  let p := dualsense_init_output_report ds
  let c := { p.2.common with
             valid_flag2 := DS_OUTPUT_VALID_FLAG2_LIGHTBAR_SETUP_CONTROL_ENABLE }
  if state = "on" then
    (0, p.1, [{ p.2 with common :=
       { c with lightbar_setup := DS_OUTPUT_LIGHTBAR_SETUP_LIGHT_ON } }])
  else if state = "off" then
    (0, p.1, [{ p.2 with common :=
       { c with lightbar_setup := DS_OUTPUT_LIGHTBAR_SETUP_LIGHT_OUT } }])
  else
    (1, p.1, [])

/-- `command_lightbar3`: lightbar colour, each channel scaled by
`brightness/255` with truncating integer division. -/
def command_lightbar3 (ds : dualsense) (red green blue brightness : Nat) :
    Nat × dualsense × List dualsense_output_report :=
  let p := dualsense_init_output_report ds
  let max_brightness : Nat := 255
  let c := { p.2.common with
             valid_flag1 := DS_OUTPUT_VALID_FLAG1_LIGHTBAR_CONTROL_ENABLE
             lightbar_red := brightness * red / max_brightness
             lightbar_green := brightness * green / max_brightness
             lightbar_blue := brightness * blue / max_brightness }
  (0, p.1, [{ p.2 with common := c }])

/-- `command_led_brightness`. -/
def command_led_brightness (ds : dualsense) (number : Nat) :
    Nat × dualsense × List dualsense_output_report :=
  if number > 2 then (1, ds, [])
  else
    let p := dualsense_init_output_report ds
    let c := { p.2.common with
               valid_flag2 := DS_OUTPUT_VALID_FLAG2_LED_BRIGHTNESS_CONTROL_ENABLE
               led_brightness := number }
    (0, p.1, [{ p.2 with common := c }])

/-- The `player_ids` lookup table of `command_player_leds`. -/
def player_ids : List Nat :=
  [0,
   BIT 2,
   BIT 3 ||| BIT 1,
   BIT 4 ||| BIT 2 ||| BIT 0,
   BIT 4 ||| BIT 3 ||| BIT 1 ||| BIT 0,
   BIT 4 ||| BIT 3 ||| BIT 2 ||| BIT 1 ||| BIT 0,
   BIT 4 ||| BIT 0,
   BIT 3 ||| BIT 2 ||| BIT 1]

/-- `command_player_leds`. -/
def command_player_leds (ds : dualsense) (number : Nat) (instant : Bool) :
    Nat × dualsense × List dualsense_output_report :=
  if number ≥ player_ids.length then (1, ds, [])
  else
    let p := dualsense_init_output_report ds
    let c := { p.2.common with
               valid_flag1 := DS_OUTPUT_VALID_FLAG1_PLAYER_INDICATOR_CONTROL_ENABLE
               player_leds := player_ids.getD number 0 |||
                 ((if instant then 1 else 0) <<< 5) }
    (0, p.1, [{ p.2 with common := c }])

/-- `command_microphone`: clears or sets the mic-mute bit within the
power-save byte (`&= ~MIC_MUTE` on a `uint8_t` is `&&& 0xEF`). -/
def command_microphone (ds : dualsense) (state : String) :
    Nat × dualsense × List dualsense_output_report :=
  let p := dualsense_init_output_report ds
  let c := { p.2.common with
             valid_flag1 := DS_OUTPUT_VALID_FLAG1_POWER_SAVE_CONTROL_ENABLE }
  if state = "on" then
    (0, p.1, [{ p.2 with common :=
       { c with power_save_control := c.power_save_control &&& 0xEF } }])
  else if state = "off" then
    (0, p.1, [{ p.2 with common :=
       { c with power_save_control :=
           c.power_save_control ||| DS_OUTPUT_POWER_SAVE_CONTROL_MIC_MUTE } }])
  else
    (1, p.1, [])

/-- `command_microphone_led`. -/
def command_microphone_led (ds : dualsense) (state : String) :
    Nat × dualsense × List dualsense_output_report :=
  let p := dualsense_init_output_report ds
  let c := { p.2.common with
             valid_flag1 := DS_OUTPUT_VALID_FLAG1_MIC_MUTE_LED_CONTROL_ENABLE }
  if state = "on" then
    (0, p.1, [{ p.2 with common := { c with mute_button_led := 1 } }])
  else if state = "off" then
    (0, p.1, [{ p.2 with common := { c with mute_button_led := 0 } }])
  else if state = "pulse" then
    (0, p.1, [{ p.2 with common := { c with mute_button_led := 2 } }])
  else
    (1, p.1, [])

/-- `command_microphone_mode`. -/
def command_microphone_mode (ds : dualsense) (state : String) :
    Nat × dualsense × List dualsense_output_report :=
  let p := dualsense_init_output_report ds
  let c := { p.2.common with
             valid_flag0 := DS_OUTPUT_VALID_FLAG0_AUDIO_CONTROL_ENABLE }
  if state = "chat" then
    (0, p.1, [{ p.2 with common :=
       { c with audio_flags := 1 <<< DS_OUTPUT_AUDIO_INPUT_PATH_SHIFT } }])
  else if state = "asr" then
    (0, p.1, [{ p.2 with common :=
       { c with audio_flags := 2 <<< DS_OUTPUT_AUDIO_INPUT_PATH_SHIFT } }])
  else if state = "both" then
    (0, p.1, [{ p.2 with common := { c with audio_flags := 0 } }])
  else
    (1, p.1, [])

/-- `command_speaker`. -/
def command_speaker (ds : dualsense) (state : String) :
    Nat × dualsense × List dualsense_output_report :=
  let p := dualsense_init_output_report ds
  let c := { p.2.common with
             valid_flag0 := DS_OUTPUT_VALID_FLAG0_AUDIO_CONTROL_ENABLE }
  if state = "internal" then
    (0, p.1, [{ p.2 with common :=
       { c with audio_flags := 3 <<< DS_OUTPUT_AUDIO_OUTPUT_PATH_SHIFT } }])
  else if state = "headphone" then
    (0, p.1, [{ p.2 with common := { c with audio_flags := 0 } }])
  else if state = "monoheadphone" then
    (0, p.1, [{ p.2 with common :=
       { c with audio_flags := 1 <<< DS_OUTPUT_AUDIO_OUTPUT_PATH_SHIFT } }])
  else if state = "both" then
    (0, p.1, [{ p.2 with common :=
       { c with audio_flags := 2 <<< DS_OUTPUT_AUDIO_OUTPUT_PATH_SHIFT } }])
  else
    (1, p.1, [])

/-- `command_volume`: headphone byte `volume*0x7f/255`, speaker byte
`volume*0x64/255`, both flags set (`=` then `|=`). -/
def command_volume (ds : dualsense) (volume : Nat) :
    Nat × dualsense × List dualsense_output_report :=
  let p := dualsense_init_output_report ds
  let max_volume : Nat := 255
  let c := { p.2.common with
             valid_flag0 := DS_OUTPUT_VALID_FLAG0_HEADPHONE_VOLUME_ENABLE |||
               DS_OUTPUT_VALID_FLAG0_SPEAKER_VOLUME_ENABLE
             headphone_audio_volume := volume * 0x7f / max_volume
             speaker_audio_volume := volume * 0x64 / max_volume }
  (0, p.1, [{ p.2 with common := c }])

/-- `command_vibration_attenuation`: rumble in the low 3 bits, trigger in
bits 4-6 of `reduce_motor_power`. -/
def command_vibration_attenuation (ds : dualsense)
    (rumble_attenuation trigger_attenuation : Nat) :
    Nat × dualsense × List dualsense_output_report :=
  let p := dualsense_init_output_report ds
  let c := { p.2.common with
             valid_flag1 := DS_OUTPUT_VALID_FLAG1_VIBRATION_ATTENUATION_ENABLE
             reduce_motor_power :=
               (rumble_attenuation &&& 0x07) |||
                 ((trigger_attenuation &&& 0x07) <<< 4) }
  (0, p.1, [{ p.2 with common := c }])

/-- The nine `param[0..8]` assignments of `command_trigger` applied to a
10-byte trigger parameter array. -/
def trigger_params_set (arr : List Nat)
    (param1 param2 param3 param4 param5 param6 param7 param8 param9 : Nat) :
    List Nat :=
  ((((((((arr.set 0 param1).set 1 param2).set 2 param3).set 3 param4).set 4
    param5).set 5 param6).set 6 param7).set 7 param8).set 8 param9

/-- `command_trigger`: the generic trigger encoder.  Sets the right/left
valid flags per the selector, then writes the identical mode and parameters
into both trigger blocks. -/
def command_trigger (ds : dualsense) (trigger : String)
    (mode param1 param2 param3 param4 param5 param6 param7 param8 param9 : Nat) :
    Nat × dualsense × List dualsense_output_report :=
  let p := dualsense_init_output_report ds
  let c0 := p.2.common
  let c1 := if trigger = "right" ∨ trigger = "both" then
      { c0 with valid_flag0 := DS_OUTPUT_VALID_FLAG0_RIGHT_TRIGGER_MOTOR_ENABLE }
    else c0
  let c2 := if trigger = "left" ∨ trigger = "both" then
      { c1 with valid_flag0 :=
          c1.valid_flag0 ||| DS_OUTPUT_VALID_FLAG0_LEFT_TRIGGER_MOTOR_ENABLE }
    else c1
  let c3 := { c2 with
              right_trigger_motor_mode := mode
              right_trigger_param := trigger_params_set c2.right_trigger_param
                param1 param2 param3 param4 param5 param6 param7 param8 param9
              left_trigger_motor_mode := mode
              left_trigger_param := trigger_params_set c2.left_trigger_param
                param1 param2 param3 param4 param5 param6 param7 param8 param9 }
  (0, p.1, [{ p.2 with common := c3 }])

/-- `command_trigger_off`. -/
def command_trigger_off (ds : dualsense) (trigger : String) :
    Nat × dualsense × List dualsense_output_report :=
  command_trigger ds trigger DS_TRIGGER_EFFECT_OFF 0 0 0 0 0 0 0 0 0

/-- The zone-packing loop of `trigger_bitpacking_array`: walk the 10
strengths from index `i`, reject any value above 8, and accumulate the
active-zones mask and the 3-bit strength-zones field. -/
def bitpackGo : List Nat → Nat → Nat → Nat → Option (Nat × Nat)
  | [], _, strength_zones, active_zones => some (active_zones, strength_zones)
  | v :: vs, i, strength_zones, active_zones =>
    if v > 8 then none
    else if v > 0 then
      bitpackGo vs (i + 1)
        (strength_zones ||| (((v - 1) &&& 0x07) <<< (3 * i)))
        (active_zones ||| (1 <<< i))
    else
      bitpackGo vs (i + 1) strength_zones active_zones

/-- `trigger_bitpacking_array`: pack the zone strengths and hand the split
bytes to `command_trigger` (error exit 1 if a strength exceeds 8, before any
report is built). -/
def trigger_bitpacking_array (ds : dualsense) (trigger : String) (mode : Nat)
    (strength : List Nat) (frequency : Nat) :
    Nat × dualsense × List dualsense_output_report :=
  match bitpackGo strength 0 0 0 with
  | none => (1, ds, [])
  | some (active_zones, strength_zones) =>
    command_trigger ds trigger mode
      ((active_zones >>> 0) &&& 0xff)
      ((active_zones >>> 8) &&& 0xff)
      ((strength_zones >>> 0) &&& 0xff)
      ((strength_zones >>> 8) &&& 0xff)
      ((strength_zones >>> 16) &&& 0xff)
      ((strength_zones >>> 24) &&& 0xff)
      0 0
      frequency

/-- `command_trigger_weapon`: validation of start/end/strength, then the
start/stop zone bitmask and `strength-1` are handed to `command_trigger`. -/
def command_trigger_weapon (ds : dualsense) (trigger : String)
    (start_position end_position strength : Nat) :
    Nat × dualsense × List dualsense_output_report :=
  if start_position > 7 ∨ start_position < 2 then (1, ds, [])
  else if end_position > 8 ∨ end_position < start_position + 1 then (1, ds, [])
  else if strength > 8 ∨ ¬(strength > 0) then (1, ds, [])
  else
    let start_stop_zones := (1 <<< start_position) ||| (1 <<< end_position)
    command_trigger ds trigger DS_TRIGGER_EFFECT_WEAPON
      ((start_stop_zones >>> 0) &&& 0xff)
      ((start_stop_zones >>> 8) &&& 0xff)
      (strength - 1)
      0 0 0 0 0 0

/-- The inverse of the zone bit-packing (the test-harness unpacker of §8):
zone `i` is inactive when mask bit `i` is clear, otherwise its strength is
the 3-bit field plus one. -/
def trigger_unpack (active_zones strength_zones : Nat) : List Nat :=
  (List.range 10).map fun i =>
    if active_zones.testBit i then ((strength_zones >>> (3 * i)) &&& 7) + 1
    else 0

/-- The active-zones mask of the packing loop as a plain binary expansion
(least-significant zone first). -/
def activeN : List Nat → Nat
  | [] => 0
  | v :: vs => (if 0 < v then 1 else 0) + 2 * activeN vs

/-- The strength-zones field of the packing loop as a plain base-8 expansion
(least-significant zone first). -/
def strengthN : List Nat → Nat
  | [] => 0
  | v :: vs => (if 0 < v then (v - 1) &&& 7 else 0) + 8 * strengthN vs

/-- The battery interpreter of `command_battery`: split the status byte into
the capacity nibble and the charging-state code and map them to a percentage
and a status string. -/
def command_battery_interpret (status : Nat) : Nat × String :=
  let battery_data := status &&& DS_STATUS_BATTERY_CAPACITY
  let charging_status := (status &&& DS_STATUS_CHARGING) >>> DS_STATUS_CHARGING_SHIFT
  if charging_status = 0x0 then (min (battery_data * 10 + 5) 100, "discharging")
  else if charging_status = 0x1 then (min (battery_data * 10 + 5) 100, "charging")
  else if charging_status = 0x2 then (100, "full")
  else if charging_status = 0xa ∨ charging_status = 0xb then (0, "not-charging")
  else (0, "unknown")

/-! Theorems -/

lemma crc32_round_lt {c : Nat} (h : c < 2 ^ 32) : crc32_round c < 2 ^ 32 := by
  unfold crc32_round
  have h1 : c >>> 1 < 2 ^ 32 := by
    rw [Nat.shiftRight_eq_div_pow]
    exact lt_of_le_of_lt (Nat.div_le_self _ _) h
  split
  · exact Nat.xor_lt_two_pow h1 (by norm_num)
  · exact h1

lemma crc32_round_iter_lt {c : Nat} (n : Nat) (h : c < 2 ^ 32) :
    crc32_round^[n] c < 2 ^ 32 := by
  induction n generalizing c with
  | zero => simpa using h
  | succ k ih =>
    rw [Function.iterate_succ_apply]
    exact ih (crc32_round_lt h)

lemma crc32_step_lt {crc byte : Nat} (hc : crc < 2 ^ 32) (hb : byte < 2 ^ 32) :
    crc32_step crc byte < 2 ^ 32 :=
  crc32_round_iter_lt 8 (Nat.xor_lt_two_pow hc hb)

lemma crc32_le_lt {crc : Nat} {data : List Nat} (hc : crc < 2 ^ 32)
    (hd : ∀ b ∈ data, b < 256) : crc32_le crc data < 2 ^ 32 := by
  induction data generalizing crc with
  | nil => simpa [crc32_le] using hc
  | cons b bs ih =>
    have hb : b < 2 ^ 32 := lt_trans (hd b (by simp)) (by norm_num)
    exact ih (crc32_step_lt hc hb) (fun x hx => hd x (by simp [hx]))

lemma bt_sign_crc_lt {data : List Nat} (hd : ∀ b ∈ data, b < 256) :
    bt_sign_crc data < 2 ^ 32 := by
  unfold bt_sign_crc
  refine Nat.xor_lt_two_pow (by norm_num) ?_
  refine crc32_le_lt (crc32_le_lt (by norm_num) ?_) ?_
  · intro b hb
    simp [PS_OUTPUT_CRC32_SEED] at hb
    omega
  · intro b hb
    exact hd b (List.mem_of_mem_take hb)

lemma leValue4_leBytes4 {n : Nat} (h : n < 2 ^ 32) : leValue4 (leBytes4 n) = n := by
  simp only [leBytes4, leValue4]
  omega

/-- C1: For every Bluetooth-framed output report (78 bytes), `send` computes
the CRC32 by starting from the all-ones accumulator `0xFFFFFFFF`, folding in
the single seed byte `0xA2`, then folding in all frame bytes except the
trailing 4-byte checksum slot, inverting the result, and storing it
little-endian in the last 4 bytes; consequently, recomputing the same
two-stage seeded CRC over the signed frame (excluding the checksum slot)
reproduces the stored checksum exactly. -/
theorem send_output_report_bt_crc_roundtrip (data : List Nat)
    (hlen : data.length = 78) (hbytes : ∀ b ∈ data, b < 256) :
    (dualsense_send_output_report_bt data).length = 78 ∧
    (dualsense_send_output_report_bt data).take 74 = data.take 74 ∧
    (dualsense_send_output_report_bt data).drop 74 = leBytes4 (bt_sign_crc data) ∧
    leValue4 ((dualsense_send_output_report_bt data).drop 74) =
      bt_sign_crc (dualsense_send_output_report_bt data) := by
  have htl : (data.take 74).length = 74 := by
    rw [List.length_take, hlen]
    omega
  have hout : dualsense_send_output_report_bt data =
      data.take 74 ++ leBytes4 (bt_sign_crc data) := by
    unfold dualsense_send_output_report_bt
    rw [hlen]
  have hlen4 : (leBytes4 (bt_sign_crc data)).length = 4 := by
    simp [leBytes4]
  have hlenout : (dualsense_send_output_report_bt data).length = 78 := by
    rw [hout, List.length_append, htl, hlen4]
  have htake : (dualsense_send_output_report_bt data).take 74 = data.take 74 := by
    rw [hout, List.take_append_eq_append_take, htl]
    simp
  have hdrop : (dualsense_send_output_report_bt data).drop 74 =
      leBytes4 (bt_sign_crc data) := by
    rw [hout, List.drop_append_eq_append_drop, htl]
    simp
  refine ⟨hlenout, htake, hdrop, ?_⟩
  have hsign : bt_sign_crc (dualsense_send_output_report_bt data) = bt_sign_crc data := by
    unfold bt_sign_crc
    rw [hlenout, hlen]
    rw [htake]
  rw [hdrop, hsign, leValue4_leBytes4 (bt_sign_crc_lt hbytes)]

/-- Witness for C1 at the concrete all-zero 78-byte frame. -/
theorem send_output_report_bt_crc_roundtrip_witness :
    (dualsense_send_output_report_bt (List.replicate 78 0)).length = 78 ∧
    (dualsense_send_output_report_bt (List.replicate 78 0)).take 74 =
      (List.replicate 78 0).take 74 ∧
    (dualsense_send_output_report_bt (List.replicate 78 0)).drop 74 =
      leBytes4 (bt_sign_crc (List.replicate 78 0)) ∧
    leValue4 ((dualsense_send_output_report_bt (List.replicate 78 0)).drop 74) =
      bt_sign_crc (dualsense_send_output_report_bt (List.replicate 78 0)) :=
  send_output_report_bt_crc_roundtrip (List.replicate 78 0) (by simp)
    (fun b hb => by simpa using (List.eq_of_mem_replicate hb) ▸ Nat.zero_lt_succ 255)

lemma buildStep_bt_seq {s : Nat} (hs : s < 16) :
    (buildStep { bt := true, output_seq := s }).output_seq = (s + 1) % 16 := by
  simp only [buildStep, dualsense_init_output_report, if_pos]
  have h1 : (s + 1) % 256 = s + 1 := Nat.mod_eq_of_lt (by omega)
  rw [h1]
  by_cases h : s + 1 = 16
  · simp [h]
  · rw [if_neg h, Nat.mod_eq_of_lt (by omega)]

lemma buildStep_iterate_seq (n : Nat) :
    (buildStep^[n] { bt := true, output_seq := 0 }) =
      { bt := true, output_seq := n % 16 } := by
  induction n with
  | zero => simp
  | succ k ih =>
    rw [Function.iterate_succ_apply', ih]
    have hb : (buildStep { bt := true, output_seq := k % 16 }).bt = true := by
      simp [buildStep, dualsense_init_output_report]
    have hs : (buildStep { bt := true, output_seq := k % 16 }).output_seq =
        (k % 16 + 1) % 16 := buildStep_bt_seq (Nat.mod_lt _ (by norm_num))
    have : (k % 16 + 1) % 16 = (k + 1) % 16 := by
      conv_rhs => rw [← Nat.mod_add_mod]
    cases hds : buildStep { bt := true, output_seq := k % 16 } with
    | mk b s =>
      simp only [hds] at hb hs
      simp [hb, hs, this]

/-- C2: building N consecutive Bluetooth output frames from one session
(starting at the zeroed counter of `dualsense_init`) yields seq-byte
upper-nibble values `0,1,...,15,0,1,...` cycling every 16 frames; the 4-bit
counter stays in `[0,15]` after every build; and a USB (non-Bluetooth)
build leaves the session unchanged, so only the Bluetooth mod-16 increment
ever changes it. -/
theorem output_seq_counter_spec :
    (∀ n : Nat, (nthBuiltReport { bt := true, output_seq := 0 } n).seq_tag >>> 4 =
        n % 16) ∧
    (∀ n : Nat, (nthBuiltReport { bt := true, output_seq := 0 } (n + 16)).seq_tag =
        (nthBuiltReport { bt := true, output_seq := 0 } n).seq_tag) ∧
    (∀ ds : dualsense, ds.output_seq < 16 → (buildStep ds).output_seq < 16) ∧
    (∀ ds : dualsense, ds.bt = false → buildStep ds = ds) := by
  have hseq : ∀ n : Nat,
      (nthBuiltReport { bt := true, output_seq := 0 } n).seq_tag = (n % 16) * 16 := by
    intro n
    unfold nthBuiltReport
    rw [buildStep_iterate_seq]
    simp only [dualsense_init_output_report, if_pos]
    have h1 : ((n % 16) <<< 4) ||| 0 = n % 16 * 16 := by
      rw [Nat.or_zero, Nat.shiftLeft_eq]
    rw [h1, Nat.mod_eq_of_lt (by have := Nat.mod_lt n (show 0 < 16 by norm_num); omega)]
  refine ⟨?_, ?_, ?_, ?_⟩
  · intro n
    rw [hseq n, Nat.shiftRight_eq_div_pow]
    norm_num
  · intro n
    rw [hseq n, hseq (n + 16), Nat.add_mod_right]
  · intro ds hs
    cases ds with
    | mk b s =>
      cases b
      · simpa [buildStep, dualsense_init_output_report] using hs
      · simpa using (buildStep_bt_seq hs).trans_lt (Nat.mod_lt _ (by norm_num))
  · intro ds hb
    cases ds with
    | mk b s =>
      simp only at hb
      simp [buildStep, dualsense_init_output_report, hb]

/-- Witness for C2's quantified parts at concrete inputs. -/
theorem output_seq_counter_spec_witness :
    (nthBuiltReport { bt := true, output_seq := 0 } 17).seq_tag >>> 4 = 17 % 16 ∧
    (buildStep { bt := true, output_seq := 15 }).output_seq < 16 ∧
    buildStep { bt := false, output_seq := 3 } = { bt := false, output_seq := 3 } :=
  ⟨output_seq_counter_spec.1 17,
   output_seq_counter_spec.2.2.1 { bt := true, output_seq := 15 } (by norm_num),
   output_seq_counter_spec.2.2.2 { bt := false, output_seq := 3 } rfl⟩

lemma init_output_report_common (ds : dualsense) :
    (dualsense_init_output_report ds).2.common = dualsense_output_report_common.zero := by
  cases ds with
  | mk b s => cases b <;> rfl

lemma init_output_report_fst (ds : dualsense) :
    (dualsense_init_output_report ds).1 = buildStep ds := rfl

set_option maxRecDepth 4000 in
/-- C8: the battery interpreter maps the capacity nibble `n` and
charging-state code `c` of the status byte as: `c=0` ⇒ `min(n*10+5,100)`
"discharging"; `c=1` ⇒ `min(n*10+5,100)` "charging"; `c=2` ⇒ 100 "full";
`c=0xA/0xB` ⇒ 0 "not-charging"; any other code ⇒ 0 "unknown".  In
particular `n=5,c=0` yields 55 "discharging" and `n=0,c=2` yields
100 "full". -/
theorem command_battery_interpret_spec :
    (∀ status < 256,
      (status / 16 = 0 → command_battery_interpret status =
        (min (status % 16 * 10 + 5) 100, "discharging")) ∧
      (status / 16 = 1 → command_battery_interpret status =
        (min (status % 16 * 10 + 5) 100, "charging")) ∧
      (status / 16 = 2 → command_battery_interpret status = (100, "full")) ∧
      (status / 16 = 10 ∨ status / 16 = 11 →
        command_battery_interpret status = (0, "not-charging")) ∧
      (¬(status / 16 = 0 ∨ status / 16 = 1 ∨ status / 16 = 2 ∨
          status / 16 = 10 ∨ status / 16 = 11) →
        command_battery_interpret status = (0, "unknown"))) ∧
    command_battery_interpret 0x05 = (55, "discharging") ∧
    command_battery_interpret 0x20 = (100, "full") := by
  refine ⟨?_, by decide, by decide⟩
  decide

/-- Witness for C8's bounded quantifier at a concrete status byte. -/
theorem command_battery_interpret_spec_witness :
    command_battery_interpret 0xB3 = (0, "not-charging") :=
  (command_battery_interpret_spec.1 0xB3 (by decide)).2.2.2.1 (by decide)

lemma volume_flag_value :
    DS_OUTPUT_VALID_FLAG0_HEADPHONE_VOLUME_ENABLE |||
      DS_OUTPUT_VALID_FLAG0_SPEAKER_VOLUME_ENABLE = 0x30 := by decide

/-- C9: for every volume in 0..255 the volume encoder sets both the
headphone-volume (bit 4) and speaker-volume (bit 5) valid flags and writes
headphone byte `volume*0x7f/255` and speaker byte `volume*0x64/255`
(truncating); volume 255 gives bytes 0x7f/0x64 and volume 0 gives 0/0. -/
theorem command_volume_spec (ds : dualsense) (volume : Nat) (hv : volume < 256) :
    command_volume ds volume =
      (0, buildStep ds,
        [{ (dualsense_init_output_report ds).2 with common :=
          { dualsense_output_report_common.zero with
              valid_flag0 := 0x30
              headphone_audio_volume := volume * 0x7f / 255
              speaker_audio_volume := volume * 0x64 / 255 } }]) ∧
    Nat.testBit 0x30 4 = true ∧ Nat.testBit 0x30 5 = true ∧
    (255 : Nat) * 0x7f / 255 = 0x7f ∧ (255 : Nat) * 0x64 / 255 = 0x64 ∧
    (0 : Nat) * 0x7f / 255 = 0 ∧ (0 : Nat) * 0x64 / 255 = 0 := by
  refine ⟨?_, by decide, by decide, by decide, by decide, by decide, by decide⟩
  cases ds with
  | mk b s =>
    cases b <;>
      simp [command_volume, buildStep, dualsense_init_output_report,
        volume_flag_value]

/-- Witness for C9 at a concrete session and volume. -/
theorem command_volume_spec_witness :
    command_volume { bt := false, output_seq := 0 } 255 =
      (0, buildStep { bt := false, output_seq := 0 },
        [{ (dualsense_init_output_report { bt := false, output_seq := 0 }).2 with
           common :=
          { dualsense_output_report_common.zero with
              valid_flag0 := 0x30
              headphone_audio_volume := 255 * 0x7f / 255
              speaker_audio_volume := 255 * 0x64 / 255 } }]) :=
  (command_volume_spec { bt := false, output_seq := 0 } 255 (by decide)).1

/-- C6: for every trigger selector in `{left, right, both}` and every mode
and parameter bytes, `command_trigger` writes the identical mode and
parameters into both 11-byte trigger-motor blocks, and sets the
right-trigger valid flag (bit 2) iff the selector is `right` or `both` and
the left-trigger valid flag (bit 3) iff the selector is `left` or `both`. -/
theorem command_trigger_mirrors_spec (ds : dualsense) (trigger : String)
    (htr : trigger = "left" ∨ trigger = "right" ∨ trigger = "both")
    (mode p1 p2 p3 p4 p5 p6 p7 p8 p9 : Nat) :
    ∃ rp : dualsense_output_report,
      command_trigger ds trigger mode p1 p2 p3 p4 p5 p6 p7 p8 p9 =
        (0, buildStep ds, [rp]) ∧
      rp.common.right_trigger_motor_mode = mode ∧
      rp.common.left_trigger_motor_mode = mode ∧
      rp.common.right_trigger_param = [p1, p2, p3, p4, p5, p6, p7, p8, p9, 0] ∧
      rp.common.left_trigger_param = [p1, p2, p3, p4, p5, p6, p7, p8, p9, 0] ∧
      (rp.common.valid_flag0.testBit 2 ↔ (trigger = "right" ∨ trigger = "both")) ∧
      (rp.common.valid_flag0.testBit 3 ↔ (trigger = "left" ∨ trigger = "both")) := by
  have hzero := init_output_report_common ds
  rcases htr with h | h | h <;> subst h <;>
    refine ⟨_, rfl, ?_⟩ <;>
      simp [command_trigger, trigger_params_set, hzero,
        dualsense_output_report_common.zero,
        DS_OUTPUT_VALID_FLAG0_RIGHT_TRIGGER_MOTOR_ENABLE,
        DS_OUTPUT_VALID_FLAG0_LEFT_TRIGGER_MOTOR_ENABLE, BIT] <;>
      decide

/-- Witness for C6 at a concrete selector, mode and parameters. -/
theorem command_trigger_mirrors_spec_witness :
    ∃ rp : dualsense_output_report,
      command_trigger { bt := false, output_seq := 0 } "left" 5 0 0 0 0 0 0 0 0 0 =
        (0, buildStep { bt := false, output_seq := 0 }, [rp]) ∧
      rp.common.right_trigger_motor_mode = 5 ∧
      rp.common.left_trigger_motor_mode = 5 ∧
      rp.common.right_trigger_param = [0, 0, 0, 0, 0, 0, 0, 0, 0, 0] ∧
      rp.common.left_trigger_param = [0, 0, 0, 0, 0, 0, 0, 0, 0, 0] ∧
      (rp.common.valid_flag0.testBit 2 ↔ ("left" = "right" ∨ "left" = "both")) ∧
      (rp.common.valid_flag0.testBit 3 ↔ ("left" = "left" ∨ "left" = "both")) :=
  command_trigger_mirrors_spec { bt := false, output_seq := 0 } "left"
    (Or.inl rfl) 5 0 0 0 0 0 0 0 0 0

/-- C10: each string-validated encoder invoked with an unrecognized state
string sends no report and exits 1, yet has already consumed a sequence
number: the result session is `buildStep ds`, and on a Bluetooth session
`buildStep` increments the rolling 4-bit counter by one (mod 16).  The
failed invocation is therefore not atomic with respect to session state. -/
theorem invalid_state_consumes_seq :
    (∀ (ds : dualsense) (state : String), state ≠ "on" → state ≠ "off" →
        command_lightbar1 ds state = (1, buildStep ds, [])) ∧
    (∀ (ds : dualsense) (state : String), state ≠ "on" → state ≠ "off" →
        command_microphone ds state = (1, buildStep ds, [])) ∧
    (∀ (ds : dualsense) (state : String), state ≠ "on" → state ≠ "off" →
        state ≠ "pulse" →
        command_microphone_led ds state = (1, buildStep ds, [])) ∧
    (∀ (ds : dualsense) (state : String), state ≠ "chat" → state ≠ "asr" →
        state ≠ "both" →
        command_microphone_mode ds state = (1, buildStep ds, [])) ∧
    (∀ (ds : dualsense) (state : String), state ≠ "internal" →
        state ≠ "headphone" → state ≠ "monoheadphone" → state ≠ "both" →
        command_speaker ds state = (1, buildStep ds, [])) ∧
    (∀ s : Nat, s < 16 →
        (buildStep { bt := true, output_seq := s }).output_seq = (s + 1) % 16) := by
  refine ⟨?_, ?_, ?_, ?_, ?_, fun s hs => buildStep_bt_seq hs⟩
  · intro ds state h1 h2
    simp [command_lightbar1, h1, h2, buildStep]
  · intro ds state h1 h2
    simp [command_microphone, h1, h2, buildStep]
  · intro ds state h1 h2 h3
    simp [command_microphone_led, h1, h2, h3, buildStep]
  · intro ds state h1 h2 h3
    simp [command_microphone_mode, h1, h2, h3, buildStep]
  · intro ds state h1 h2 h3 h4
    simp [command_speaker, h1, h2, h3, h4, buildStep]

/-- Witness for C10 at a concrete Bluetooth session and a concrete
unrecognized state string. -/
theorem invalid_state_consumes_seq_witness :
    command_lightbar1 { bt := true, output_seq := 0 } "bogus" =
      (1, buildStep { bt := true, output_seq := 0 }, []) ∧
    (buildStep { bt := true, output_seq := 0 }).output_seq = (0 + 1) % 16 :=
  ⟨invalid_state_consumes_seq.1 { bt := true, output_seq := 0 } "bogus"
     (by decide) (by decide),
   invalid_state_consumes_seq.2.2.2.2.2 0 (by norm_num)⟩

/-- C7 counterexample: `command_lightbar1` on a Bluetooth session with an
invalid state string exits 1 and sends nothing, yet the session's sequence
counter has advanced from 0 to 1 — so the frame was built
(`beginOutputReport` ran) *before* validation, contradicting the claim that
validation precedes `beginOutputReport` in every encoder. -/
theorem validation_before_build_counterexample :
    (command_lightbar1 { bt := true, output_seq := 0 } "bogus").1 = 1 ∧
    (command_lightbar1 { bt := true, output_seq := 0 } "bogus").2.2 = [] ∧
    (command_lightbar1 { bt := true, output_seq := 0 } "bogus").2.1.output_seq = 1 := by
  decide

/-- C7 (amended): every encoder invoked with arguments failing its
validation fails with an invalid-argument condition before any device I/O —
the exit status is non-zero and no report is sent.  Range-validated
encoders (led-brightness, player-leds, the trigger-effect family and the
zone bit-packer) validate before `beginOutputReport`; the string-validated
encoders build the frame first and validate before `send`. -/
theorem invalid_args_rejected_before_send :
    (∀ (ds : dualsense) (state : String), state ≠ "on" → state ≠ "off" →
        (command_lightbar1 ds state).1 ≠ 0 ∧
          (command_lightbar1 ds state).2.2 = []) ∧
    (∀ (ds : dualsense) (trigger : String)
        (start_position end_position strength : Nat),
        (start_position > 7 ∨ start_position < 2 ∨ end_position > 8 ∨
          end_position < start_position + 1 ∨ strength > 8 ∨ strength = 0) →
        command_trigger_weapon ds trigger start_position end_position strength =
          (1, ds, [])) ∧
    (∀ (ds : dualsense) (number : Nat), 2 < number →
        command_led_brightness ds number = (1, ds, [])) ∧
    (∀ (ds : dualsense) (number : Nat) (instant : Bool), 8 ≤ number →
        command_player_leds ds number instant = (1, ds, [])) := by
  refine ⟨?_, ?_, ?_, ?_⟩
  · intro ds state h1 h2
    simp [command_lightbar1, h1, h2]
  · intro ds trigger s e st h
    unfold command_trigger_weapon
    rcases h with h | h | h | h | h | h
    · rw [if_pos (Or.inl h)]
    · rw [if_pos (Or.inr h)]
    · by_cases hs : s > 7 ∨ s < 2
      · rw [if_pos hs]
      · rw [if_neg hs, if_pos (Or.inl h)]
    · by_cases hs : s > 7 ∨ s < 2
      · rw [if_pos hs]
      · rw [if_neg hs, if_pos (Or.inr h)]
    · by_cases hs : s > 7 ∨ s < 2
      · rw [if_pos hs]
      · rw [if_neg hs]
        by_cases he : e > 8 ∨ e < s + 1
        · rw [if_pos he]
        · rw [if_neg he, if_pos (Or.inl h)]
    · by_cases hs : s > 7 ∨ s < 2
      · rw [if_pos hs]
      · rw [if_neg hs]
        by_cases he : e > 8 ∨ e < s + 1
        · rw [if_pos he]
        · rw [if_neg he, if_pos (Or.inr (by omega))]
  · intro ds number h
    simp [command_led_brightness, h]
  · intro ds number instant h
    unfold command_player_leds
    rw [if_pos (by simpa [player_ids] using h)]

/-- Witness for C7's amended statement at concrete invalid arguments. -/
theorem invalid_args_rejected_before_send_witness :
    ((command_lightbar1 { bt := false, output_seq := 0 } "bogus").1 ≠ 0 ∧
      (command_lightbar1 { bt := false, output_seq := 0 } "bogus").2.2 = []) ∧
    command_trigger_weapon { bt := false, output_seq := 0 } "both" 1 5 3 =
      (1, { bt := false, output_seq := 0 }, []) ∧
    command_led_brightness { bt := false, output_seq := 0 } 3 =
      (1, { bt := false, output_seq := 0 }, []) ∧
    command_player_leds { bt := false, output_seq := 0 } 8 false =
      (1, { bt := false, output_seq := 0 }, []) :=
  ⟨invalid_args_rejected_before_send.1 { bt := false, output_seq := 0 } "bogus"
     (by decide) (by decide),
   invalid_args_rejected_before_send.2.1 { bt := false, output_seq := 0 } "both"
     1 5 3 (by omega),
   invalid_args_rejected_before_send.2.2.1 { bt := false, output_seq := 0 } 3
     (by omega),
   invalid_args_rejected_before_send.2.2.2 { bt := false, output_seq := 0 } 8
     false (by omega)⟩

/-- C5 counterexample: `command_trigger` with selector `left` (a valid
argument) writes the right-trigger block (`right_trigger_motor_mode = 1`)
but does not set the right-trigger valid flag (bit 2 of `valid_flag0`), so
it is not the case that every encoder sets the valid-flag bit corresponding
to each common-block field it writes. -/
theorem flag_field_correspondence_counterexample :
    ((command_trigger { bt := false, output_seq := 0 } "left" 1 0 0 0 0 0 0 0 0 0).2.2.map
      fun rp => (rp.common.right_trigger_motor_mode,
                 rp.common.valid_flag0.testBit 2)) = [(1, false)] := by
  decide

/-- C5 (amended): for every command encoder and every valid argument, the
constructed report is the freshly framed buffer whose common block is zero
except for the valid-flag bit(s) the encoder sets and the value field(s) it
writes — with the one exception of the generic trigger encoder, which
mirrors the mode and parameters into *both* trigger blocks while setting
only the selected side's valid flag(s). -/
theorem encoder_frame_effect_spec :
    (∀ ds : dualsense, command_lightbar1 ds ("on") =
      (0, buildStep ds, [{ (dualsense_init_output_report ds).2 with common :=
        { dualsense_output_report_common.zero with
            valid_flag2 := 2, lightbar_setup := 1 } }])) ∧
    (∀ ds : dualsense, command_lightbar1 ds ("off") =
      (0, buildStep ds, [{ (dualsense_init_output_report ds).2 with common :=
        { dualsense_output_report_common.zero with
            valid_flag2 := 2, lightbar_setup := 2 } }])) ∧
    (∀ (ds : dualsense) (red green blue brightness : Nat),
      command_lightbar3 ds red green blue brightness =
      (0, buildStep ds, [{ (dualsense_init_output_report ds).2 with common :=
        { dualsense_output_report_common.zero with
            valid_flag1 := 4
            lightbar_red := brightness * red / 255
            lightbar_green := brightness * green / 255
            lightbar_blue := brightness * blue / 255 } }])) ∧
    (∀ (ds : dualsense) (number : Nat), number ≤ 2 →
      command_led_brightness ds number =
      (0, buildStep ds, [{ (dualsense_init_output_report ds).2 with common :=
        { dualsense_output_report_common.zero with
            valid_flag2 := 1, led_brightness := number } }])) ∧
    (∀ (ds : dualsense) (number : Nat) (instant : Bool), number < 8 →
      command_player_leds ds number instant =
      (0, buildStep ds, [{ (dualsense_init_output_report ds).2 with common :=
        { dualsense_output_report_common.zero with
            valid_flag1 := 16
            player_leds := player_ids.getD number 0 |||
              ((if instant then 1 else 0) <<< 5) } }])) ∧
    (∀ ds : dualsense, command_microphone ds ("on") =
      (0, buildStep ds, [{ (dualsense_init_output_report ds).2 with common :=
        { dualsense_output_report_common.zero with valid_flag1 := 2 } }])) ∧
    (∀ ds : dualsense, command_microphone ds ("off") =
      (0, buildStep ds, [{ (dualsense_init_output_report ds).2 with common :=
        { dualsense_output_report_common.zero with
            valid_flag1 := 2, power_save_control := 16 } }])) ∧
    (∀ (ds : dualsense) (v : Nat) (state : String),
      ((state, v) ∈ ([("on", 1), ("off", 0), ("pulse", 2)] : List (String × Nat)) →
      command_microphone_led ds state =
      (0, buildStep ds, [{ (dualsense_init_output_report ds).2 with common :=
        { dualsense_output_report_common.zero with
            valid_flag1 := 1, mute_button_led := v } }]))) ∧
    (∀ (ds : dualsense) (v : Nat) (state : String),
      ((state, v) ∈ ([("chat", 64), ("asr", 128), ("both", 0)] : List (String × Nat)) →
      command_microphone_mode ds state =
      (0, buildStep ds, [{ (dualsense_init_output_report ds).2 with common :=
        { dualsense_output_report_common.zero with
            valid_flag0 := 128, audio_flags := v } }]))) ∧
    (∀ (ds : dualsense) (v : Nat) (state : String),
      ((state, v) ∈ ([("internal", 48), ("headphone", 0), ("monoheadphone", 16),
          ("both", 32)] : List (String × Nat)) →
      command_speaker ds state =
      (0, buildStep ds, [{ (dualsense_init_output_report ds).2 with common :=
        { dualsense_output_report_common.zero with
            valid_flag0 := 128, audio_flags := v } }]))) ∧
    (∀ (ds : dualsense) (volume : Nat),
      command_volume ds volume =
      (0, buildStep ds, [{ (dualsense_init_output_report ds).2 with common :=
        { dualsense_output_report_common.zero with
            valid_flag0 := 48
            headphone_audio_volume := volume * 0x7f / 255
            speaker_audio_volume := volume * 0x64 / 255 } }])) ∧
    (∀ (ds : dualsense) (rumble_attenuation trigger_attenuation : Nat),
      command_vibration_attenuation ds rumble_attenuation trigger_attenuation =
      (0, buildStep ds, [{ (dualsense_init_output_report ds).2 with common :=
        { dualsense_output_report_common.zero with
            valid_flag1 := 64
            reduce_motor_power := (rumble_attenuation &&& 0x07) |||
              ((trigger_attenuation &&& 0x07) <<< 4) } }])) ∧
    (∀ (ds : dualsense) (mode p1 p2 p3 p4 p5 p6 p7 p8 p9 : Nat),
      command_trigger ds ("both") mode p1 p2 p3 p4 p5 p6 p7 p8 p9 =
      (0, buildStep ds, [{ (dualsense_init_output_report ds).2 with common :=
        { dualsense_output_report_common.zero with
            valid_flag0 := 12
            right_trigger_motor_mode := mode
            right_trigger_param := [p1, p2, p3, p4, p5, p6, p7, p8, p9, 0]
            left_trigger_motor_mode := mode
            left_trigger_param := [p1, p2, p3, p4, p5, p6, p7, p8, p9, 0] } }])) ∧
    (∀ (ds : dualsense) (mode p1 p2 p3 p4 p5 p6 p7 p8 p9 : Nat),
      command_trigger ds ("left") mode p1 p2 p3 p4 p5 p6 p7 p8 p9 =
      (0, buildStep ds, [{ (dualsense_init_output_report ds).2 with common :=
        { dualsense_output_report_common.zero with
            valid_flag0 := 8
            right_trigger_motor_mode := mode
            right_trigger_param := [p1, p2, p3, p4, p5, p6, p7, p8, p9, 0]
            left_trigger_motor_mode := mode
            left_trigger_param := [p1, p2, p3, p4, p5, p6, p7, p8, p9, 0] } }])) ∧
    (∀ (ds : dualsense) (mode p1 p2 p3 p4 p5 p6 p7 p8 p9 : Nat),
      command_trigger ds ("right") mode p1 p2 p3 p4 p5 p6 p7 p8 p9 =
      (0, buildStep ds, [{ (dualsense_init_output_report ds).2 with common :=
        { dualsense_output_report_common.zero with
            valid_flag0 := 4
            right_trigger_motor_mode := mode
            right_trigger_param := [p1, p2, p3, p4, p5, p6, p7, p8, p9, 0]
            left_trigger_motor_mode := mode
            left_trigger_param := [p1, p2, p3, p4, p5, p6, p7, p8, p9, 0] } }])) := by
  have hcz : ∀ ds : dualsense, (dualsense_init_output_report ds).2.common =
      dualsense_output_report_common.zero := init_output_report_common
  refine ⟨?_, ?_, ?_, ?_, ?_, ?_, ?_, ?_, ?_, ?_, ?_, ?_, ?_, ?_, ?_⟩
  · intro ds
    simp [command_lightbar1, buildStep, hcz ds,
      dualsense_output_report_common.zero,
      DS_OUTPUT_VALID_FLAG2_LIGHTBAR_SETUP_CONTROL_ENABLE,
      DS_OUTPUT_LIGHTBAR_SETUP_LIGHT_ON, BIT]
  · intro ds
    simp [command_lightbar1, buildStep, hcz ds,
      dualsense_output_report_common.zero,
      DS_OUTPUT_VALID_FLAG2_LIGHTBAR_SETUP_CONTROL_ENABLE,
      DS_OUTPUT_LIGHTBAR_SETUP_LIGHT_OUT, BIT]
  · intro ds red green blue brightness
    simp [command_lightbar3, buildStep, hcz ds,
      dualsense_output_report_common.zero,
      DS_OUTPUT_VALID_FLAG1_LIGHTBAR_CONTROL_ENABLE, BIT]
  · intro ds number h
    simp [command_led_brightness, Nat.not_lt.mpr h, buildStep, hcz ds,
      dualsense_output_report_common.zero,
      DS_OUTPUT_VALID_FLAG2_LED_BRIGHTNESS_CONTROL_ENABLE, BIT]
  · intro ds number instant h
    have hn : ¬(number ≥ player_ids.length) := by
      simp [player_ids]
      omega
    simp [command_player_leds, hn, buildStep, hcz ds,
      dualsense_output_report_common.zero,
      DS_OUTPUT_VALID_FLAG1_PLAYER_INDICATOR_CONTROL_ENABLE, BIT]
  · intro ds
    simp [command_microphone, buildStep, hcz ds,
      dualsense_output_report_common.zero,
      DS_OUTPUT_VALID_FLAG1_POWER_SAVE_CONTROL_ENABLE, BIT]
  · intro ds
    simp [command_microphone, buildStep, hcz ds,
      dualsense_output_report_common.zero,
      DS_OUTPUT_VALID_FLAG1_POWER_SAVE_CONTROL_ENABLE,
      DS_OUTPUT_POWER_SAVE_CONTROL_MIC_MUTE, BIT]
  · intro ds v state hm
    simp only [List.mem_cons, List.not_mem_nil, or_false, Prod.mk.injEq] at hm
    rcases hm with ⟨rfl, rfl⟩ | ⟨rfl, rfl⟩ | ⟨rfl, rfl⟩
    all_goals
      simp [command_microphone_led, buildStep, hcz ds,
        dualsense_output_report_common.zero,
        DS_OUTPUT_VALID_FLAG1_MIC_MUTE_LED_CONTROL_ENABLE, BIT]
  · intro ds v state hm
    simp only [List.mem_cons, List.not_mem_nil, or_false, Prod.mk.injEq] at hm
    rcases hm with ⟨rfl, rfl⟩ | ⟨rfl, rfl⟩ | ⟨rfl, rfl⟩
    all_goals
      simp [command_microphone_mode, buildStep, hcz ds,
        dualsense_output_report_common.zero,
        DS_OUTPUT_VALID_FLAG0_AUDIO_CONTROL_ENABLE,
        DS_OUTPUT_AUDIO_INPUT_PATH_SHIFT, BIT]
  · intro ds v state hm
    simp only [List.mem_cons, List.not_mem_nil, or_false, Prod.mk.injEq] at hm
    rcases hm with ⟨rfl, rfl⟩ | ⟨rfl, rfl⟩ | ⟨rfl, rfl⟩ | ⟨rfl, rfl⟩
    all_goals
      simp [command_speaker, buildStep, hcz ds,
        dualsense_output_report_common.zero,
        DS_OUTPUT_VALID_FLAG0_AUDIO_CONTROL_ENABLE,
        DS_OUTPUT_AUDIO_OUTPUT_PATH_SHIFT, BIT]
  · intro ds volume
    simp [command_volume, buildStep, hcz ds,
      dualsense_output_report_common.zero,
      DS_OUTPUT_VALID_FLAG0_HEADPHONE_VOLUME_ENABLE,
      DS_OUTPUT_VALID_FLAG0_SPEAKER_VOLUME_ENABLE, BIT]
  · intro ds r t
    simp [command_vibration_attenuation, buildStep, hcz ds,
      dualsense_output_report_common.zero,
      DS_OUTPUT_VALID_FLAG1_VIBRATION_ATTENUATION_ENABLE, BIT]
  · intro ds mode p1 p2 p3 p4 p5 p6 p7 p8 p9
    simp [command_trigger, trigger_params_set, buildStep, hcz ds,
      dualsense_output_report_common.zero,
      DS_OUTPUT_VALID_FLAG0_RIGHT_TRIGGER_MOTOR_ENABLE,
      DS_OUTPUT_VALID_FLAG0_LEFT_TRIGGER_MOTOR_ENABLE, BIT]
  · intro ds mode p1 p2 p3 p4 p5 p6 p7 p8 p9
    simp [command_trigger, trigger_params_set, buildStep, hcz ds,
      dualsense_output_report_common.zero,
      DS_OUTPUT_VALID_FLAG0_RIGHT_TRIGGER_MOTOR_ENABLE,
      DS_OUTPUT_VALID_FLAG0_LEFT_TRIGGER_MOTOR_ENABLE, BIT]
  · intro ds mode p1 p2 p3 p4 p5 p6 p7 p8 p9
    simp [command_trigger, trigger_params_set, buildStep, hcz ds,
      dualsense_output_report_common.zero,
      DS_OUTPUT_VALID_FLAG0_RIGHT_TRIGGER_MOTOR_ENABLE,
      DS_OUTPUT_VALID_FLAG0_LEFT_TRIGGER_MOTOR_ENABLE, BIT]

/-- Witness for C5's amended statement at concrete sessions and arguments. -/
theorem encoder_frame_effect_spec_witness :
    command_led_brightness { bt := false, output_seq := 0 } 2 =
      (0, buildStep { bt := false, output_seq := 0 },
        [{ (dualsense_init_output_report { bt := false, output_seq := 0 }).2 with
           common := { dualsense_output_report_common.zero with
             valid_flag2 := 1, led_brightness := 2 } }]) ∧
    command_microphone_led { bt := false, output_seq := 0 } "pulse" =
      (0, buildStep { bt := false, output_seq := 0 },
        [{ (dualsense_init_output_report { bt := false, output_seq := 0 }).2 with
           common := { dualsense_output_report_common.zero with
             valid_flag1 := 1, mute_button_led := 2 } }]) :=
  ⟨encoder_frame_effect_spec.2.2.2.1 { bt := false, output_seq := 0 } 2
     (by omega),
   encoder_frame_effect_spec.2.2.2.2.2.2.2.1 { bt := false, output_seq := 0 } 2
     "pulse" (by decide)⟩

lemma lor_shiftLeft_eq_add {a : Nat} (b i : Nat) (h : a < 2 ^ i) :
    a ||| (b <<< i) = a + b * 2 ^ i := by
  rw [Nat.shiftLeft_eq, Nat.lor_comm, mul_comm b (2 ^ i), ← Nat.mul_add_lt_is_or h b]
  ring

lemma and7_eq_mod (n : Nat) : n &&& 7 = n % 8 := by
  have := Nat.and_pow_two_sub_one_eq_mod n 3
  norm_num at this
  omega

lemma activeN_lt (vs : List Nat) : activeN vs < 2 ^ vs.length := by
  induction vs with
  | nil => simp [activeN]
  | cons v vs ih =>
    have h1 : (2:Nat) ^ (v :: vs).length = 2 ^ vs.length * 2 := by
      rw [List.length_cons, pow_succ]
    rw [activeN, h1]
    split <;> omega

lemma strengthN_lt (vs : List Nat) : strengthN vs < 2 ^ (3 * vs.length) := by
  induction vs with
  | nil => simp [strengthN]
  | cons v vs ih =>
    have h1 : (2:Nat) ^ (3 * (v :: vs).length) = 2 ^ (3 * vs.length) * 8 := by
      rw [List.length_cons, Nat.mul_add, pow_add]
      norm_num
    have h2 : (v - 1) &&& 7 < 8 := by
      rw [and7_eq_mod]
      exact Nat.mod_lt _ (by norm_num)
    rw [strengthN, h1]
    split <;> omega

lemma bitpackGo_valid : ∀ (vs : List Nat) (i sz az : Nat),
    (∀ v ∈ vs, v ≤ 8) → az < 2 ^ i → sz < 2 ^ (3 * i) →
    bitpackGo vs i sz az =
      some (az + activeN vs * 2 ^ i, sz + strengthN vs * 2 ^ (3 * i)) := by
  intro vs
  induction vs with
  | nil => intro i sz az _ _ _; simp [bitpackGo, activeN, strengthN]
  | cons v vs ih =>
    intro i sz az hall haz hsz
    have hv : v ≤ 8 := hall v (by simp)
    have hall' : ∀ w ∈ vs, w ≤ 8 := fun w hw => hall w (by simp [hw])
    have hpow : (2:Nat) ^ (i + 1) = 2 ^ i * 2 := pow_succ 2 i
    have hpow3 : (2:Nat) ^ (3 * (i + 1)) = 2 ^ (3 * i) * 8 := by
      rw [Nat.mul_add, pow_add]
      norm_num
    rw [bitpackGo, if_neg (by omega)]
    by_cases h0 : v > 0
    · rw [if_pos h0]
      have h7 : (v - 1) &&& 7 < 8 := by
        rw [and7_eq_mod]
        exact Nat.mod_lt _ (by norm_num)
      have hmul : ((v - 1) &&& 7) * 2 ^ (3 * i) ≤ 7 * 2 ^ (3 * i) :=
        Nat.mul_le_mul_right _ (by omega)
      rw [lor_shiftLeft_eq_add 1 i haz, lor_shiftLeft_eq_add _ (3 * i) hsz]
      rw [ih (i + 1) _ _ hall' (by omega) (by omega)]
      simp only [Option.some.injEq, Prod.mk.injEq]
      constructor
      · rw [activeN, if_pos h0, hpow]
        ring
      · rw [strengthN, if_pos h0, hpow3]
        ring
    · rw [if_neg h0]
      rw [ih (i + 1) _ _ hall' (by omega) (by omega)]
      simp only [Option.some.injEq, Prod.mk.injEq]
      constructor
      · rw [activeN, if_neg h0, hpow]
        ring
      · rw [strengthN, if_neg h0, hpow3]
        ring

lemma bitpackGo_none : ∀ (vs : List Nat) (i sz az : Nat),
    (∃ v ∈ vs, 8 < v) → bitpackGo vs i sz az = none := by
  intro vs
  induction vs with
  | nil => intro i sz az h; simp at h
  | cons v vs ih =>
    intro i sz az h
    rcases h with ⟨w, hw, hw8⟩
    rw [bitpackGo]
    rcases List.mem_cons.mp hw with rfl | hwvs
    · rw [if_pos hw8]
    · by_cases hv8 : v > 8
      · rw [if_pos hv8]
      · rw [if_neg hv8]
        by_cases h0 : v > 0
        · rw [if_pos h0, ih _ _ _ ⟨w, hwvs, hw8⟩]
        · rw [if_neg h0, ih _ _ _ ⟨w, hwvs, hw8⟩]

lemma activeN_div_mod (vs : List Nat) : ∀ j : Nat,
    activeN vs / 2 ^ j % 2 = if 0 < vs.getD j 0 then 1 else 0 := by
  induction vs with
  | nil => intro j; simp [activeN, List.getD]
  | cons v vs ih =>
    intro j
    cases j with
    | zero =>
      simp only [activeN, pow_zero, Nat.div_one, List.getD_cons_zero]
      split <;> omega
    | succ j =>
      have h2 : ((if 0 < v then 1 else 0) + 2 * activeN vs) / 2 = activeN vs := by
        split <;> omega
      have key : ((if 0 < v then 1 else 0) + 2 * activeN vs) / 2 ^ (j + 1) =
          activeN vs / 2 ^ j := by
        rw [pow_succ', ← Nat.div_div_eq_div_mul, h2]
      simp only [activeN, List.getD_cons_succ]
      rw [key, ih j]

lemma strengthN_div_mod (vs : List Nat) : ∀ j : Nat,
    strengthN vs / 8 ^ j % 8 =
      if 0 < vs.getD j 0 then (vs.getD j 0 - 1) &&& 7 else 0 := by
  induction vs with
  | nil => intro j; simp [strengthN, List.getD]
  | cons v vs ih =>
    intro j
    have h7 : (v - 1) &&& 7 < 8 := by
      rw [and7_eq_mod]
      exact Nat.mod_lt _ (by norm_num)
    cases j with
    | zero =>
      simp only [strengthN, pow_zero, Nat.div_one, List.getD_cons_zero]
      generalize (v - 1) &&& 7 = a at h7 ⊢
      split <;> omega
    | succ j =>
      have h2 : ((if 0 < v then (v - 1) &&& 7 else 0) + 8 * strengthN vs) / 8 =
          strengthN vs := by
        generalize (v - 1) &&& 7 = a at h7 ⊢
        split <;> omega
      have key : ((if 0 < v then (v - 1) &&& 7 else 0) + 8 * strengthN vs) /
          8 ^ (j + 1) = strengthN vs / 8 ^ j := by
        rw [pow_succ', ← Nat.div_div_eq_div_mul, h2]
      simp only [strengthN, List.getD_cons_succ]
      rw [key, ih j]

lemma activeN_testBit (vs : List Nat) (j : Nat) :
    (activeN vs).testBit j = decide (0 < vs.getD j 0) := by
  rw [Nat.testBit_to_div_mod, activeN_div_mod]
  generalize vs.getD j 0 = g
  by_cases h : 0 < g <;> simp [h]

lemma strengthN_extract (vs : List Nat) (j : Nat) :
    (strengthN vs >>> (3 * j)) &&& 7 =
      if 0 < vs.getD j 0 then (vs.getD j 0 - 1) &&& 7 else 0 := by
  rw [and7_eq_mod, Nat.shiftRight_eq_div_pow]
  have h8 : (2:Nat) ^ (3 * j) = 8 ^ j := by
    rw [pow_mul]
    norm_num
  rw [h8, strengthN_div_mod]

/-- C4: the zone bit-packing is invertible on its valid domain: for every
10-element strength array with entries in 0..8 the packing loop succeeds,
and the unpacker that reads the active-zones mask and, for active zones,
the 3-bit strength field plus one, recovers the original array exactly
(the mask distinguishes strength 0 from strength 1). -/
theorem trigger_bitpack_unpack (strength : List Nat)
    (hlen : strength.length = 10) (hval : ∀ v ∈ strength, v ≤ 8) :
    ∃ az sz, bitpackGo strength 0 0 0 = some (az, sz) ∧
      trigger_unpack az sz = strength := by
  refine ⟨activeN strength, strengthN strength, ?_, ?_⟩
  · simpa using bitpackGo_valid strength 0 0 0 hval (by norm_num) (by norm_num)
  · apply List.ext_getElem
    · simp [trigger_unpack, hlen]
    · intro i h1 h2
      simp only [trigger_unpack, List.getElem_map, List.getElem_range]
      have hget : strength.getD i 0 = strength[i] :=
        List.getD_eq_getElem strength 0 h2
      have hle : strength[i] ≤ 8 := hval _ (List.getElem_mem h2)
      rw [activeN_testBit, strengthN_extract, hget]
      simp only [decide_eq_true_eq]
      by_cases h0 : 0 < strength[i]
      · rw [if_pos h0, if_pos h0, and7_eq_mod, Nat.mod_eq_of_lt (by omega)]
        omega
      · rw [if_neg h0]
        omega

/-- Witness for C4 at a concrete strength array exercising all levels. -/
theorem trigger_bitpack_unpack_witness :
    ∃ az sz, bitpackGo [0, 1, 2, 3, 4, 5, 6, 7, 8, 1] 0 0 0 = some (az, sz) ∧
      trigger_unpack az sz = [0, 1, 2, 3, 4, 5, 6, 7, 8, 1] :=
  trigger_bitpack_unpack [0, 1, 2, 3, 4, 5, 6, 7, 8, 1] (by decide) (by decide)

/-- C3 counterexample: on the valid input with strength 8 in zone 9, the
strength-zones field reaches bits 24..29, so `trigger_bitpacking_array`
passes a *non-zero* sixth parameter (`strength_zones >> 24`, here 56) to
`command_trigger` — the packed strength field occupies param3..param6, not
only param3..param5 with the remaining params zero. -/
theorem trigger_strength_param6_counterexample :
    ((trigger_bitpacking_array { bt := false, output_seq := 0 } "both" 0x21
        [0, 0, 0, 0, 0, 0, 0, 0, 0, 8] 0).2.2.map
      fun rp => rp.common.right_trigger_param.getD 5 0) = [56] := by
  decide

/-- C3 (amended): for every 10-element strength array with entries in 0..8,
`trigger_bitpacking_array` builds a 10-bit active-zones mask (bit i set iff
`strength[i] > 0`) and a 30-bit strength-zones field giving each active
zone the 3-bit value `(strength[i]-1)&0x7`, and splits them across the
trigger parameters as: mask into param1/param2 (16 bits), strength field
into param3/param4/param5/param6 (32 bits), param7 and param8 zero, and
the trailing frequency byte in param9; any array element greater than 8 is
rejected as an argument error (exit 1, nothing sent). -/
theorem trigger_bitpacking_array_spec :
    (∀ strength : List Nat, strength.length = 10 → (∀ v ∈ strength, v ≤ 8) →
      ∃ az sz, bitpackGo strength 0 0 0 = some (az, sz) ∧
        az < 2 ^ 10 ∧ sz < 2 ^ 30 ∧
        (∀ i, az.testBit i = decide (0 < strength.getD i 0)) ∧
        (∀ i, (sz >>> (3 * i)) &&& 7 =
          if 0 < strength.getD i 0 then (strength.getD i 0 - 1) &&& 7 else 0) ∧
        (∀ (ds : dualsense) (trigger : String) (mode frequency : Nat),
          trigger_bitpacking_array ds trigger mode strength frequency =
            command_trigger ds trigger mode
              ((az >>> 0) &&& 0xff) ((az >>> 8) &&& 0xff)
              ((sz >>> 0) &&& 0xff) ((sz >>> 8) &&& 0xff)
              ((sz >>> 16) &&& 0xff) ((sz >>> 24) &&& 0xff)
              0 0 frequency)) ∧
    (∀ (ds : dualsense) (trigger : String) (mode : Nat) (strength : List Nat)
        (frequency : Nat), (∃ v ∈ strength, 8 < v) →
      trigger_bitpacking_array ds trigger mode strength frequency =
        (1, ds, [])) := by
  constructor
  · intro strength hlen hval
    have hpack : bitpackGo strength 0 0 0 =
        some (activeN strength, strengthN strength) := by
      simpa using bitpackGo_valid strength 0 0 0 hval (by norm_num) (by norm_num)
    refine ⟨activeN strength, strengthN strength, hpack, ?_, ?_, ?_, ?_, ?_⟩
    · have := activeN_lt strength
      rwa [hlen] at this
    · have := strengthN_lt strength
      rwa [hlen] at this
    · exact activeN_testBit strength
    · exact strengthN_extract strength
    · intro ds trigger mode frequency
      rw [trigger_bitpacking_array, hpack]
  · intro ds trigger mode strength frequency h
    rw [trigger_bitpacking_array, bitpackGo_none strength 0 0 0 h]

/-- Witness for C3's amended statement at concrete inputs. -/
theorem trigger_bitpacking_array_spec_witness :
    (∃ az sz, bitpackGo [0, 0, 0, 0, 0, 0, 0, 0, 0, 8] 0 0 0 = some (az, sz) ∧
      az < 2 ^ 10 ∧ sz < 2 ^ 30 ∧
      (∀ i, az.testBit i =
        decide (0 < ([0, 0, 0, 0, 0, 0, 0, 0, 0, 8] : List Nat).getD i 0)) ∧
      (∀ i, (sz >>> (3 * i)) &&& 7 =
        if 0 < ([0, 0, 0, 0, 0, 0, 0, 0, 0, 8] : List Nat).getD i 0 then
          (([0, 0, 0, 0, 0, 0, 0, 0, 0, 8] : List Nat).getD i 0 - 1) &&& 7
        else 0) ∧
      (∀ (ds : dualsense) (trigger : String) (mode frequency : Nat),
        trigger_bitpacking_array ds trigger mode
            [0, 0, 0, 0, 0, 0, 0, 0, 0, 8] frequency =
          command_trigger ds trigger mode
            ((az >>> 0) &&& 0xff) ((az >>> 8) &&& 0xff)
            ((sz >>> 0) &&& 0xff) ((sz >>> 8) &&& 0xff)
            ((sz >>> 16) &&& 0xff) ((sz >>> 24) &&& 0xff)
            0 0 frequency)) ∧
    trigger_bitpacking_array { bt := false, output_seq := 0 } "both" 0x21
        [0, 0, 0, 0, 0, 0, 0, 0, 9, 0] 0 =
      (1, { bt := false, output_seq := 0 }, []) :=
  ⟨trigger_bitpacking_array_spec.1 [0, 0, 0, 0, 0, 0, 0, 0, 0, 8] (by decide)
     (by decide),
   trigger_bitpacking_array_spec.2 { bt := false, output_seq := 0 } "both" 0x21
     [0, 0, 0, 0, 0, 0, 0, 0, 9, 0] 0 ⟨9, by decide, by decide⟩⟩

end Dualsensectl
